import Mathlib

/-!
Verification development for the remote-contents Drive adapter
(src/drive.ts of jupyterlab-remote-contents).

The adapter is embedded shallowly: each Drive method becomes a pure Lean
function of its inputs together with the HTTP response the remote server
would send back (the transport, ServerConnection.makeRequest from
src/serverconnection.ts, is not part of the sources under src/; per the
spec it issues exactly one HTTP request and yields the server response,
so here the response is an oracle argument and the issued request is
recorded in the outcome).  JSON payloads are modelled by an inductive
JsValue that also contains a constructor for the JavaScript value
undefined, because the validator distinguishes present-but-undefined
properties from absent ones.
-/

/-- A JavaScript/JSON value as seen by the validation code of drive.ts.
The undefined constructor stands for the JavaScript value undefined. -/
inductive JsValue where
  | undefined : JsValue
  | null : JsValue
  | bool (b : Bool) : JsValue
  | num (n : Int) : JsValue
  | str (s : String) : JsValue
  | arr (xs : List JsValue) : JsValue
  | obj (fields : List (String × JsValue)) : JsValue

/-- Result of the JavaScript typeof operator on a modelled value
(typeof null is the string object, as in JavaScript). -/
def typeofValue : JsValue → String
  | .undefined => "undefined"
  | .null => "object"
  | .bool _ => "boolean"
  | .num _ => "number"
  | .str _ => "string"
  | .arr _ => "object"
  | .obj _ => "object"

/-- Whether the value is an array, as tested by Array.isArray. -/
def JsValue.isArr : JsValue → Bool
  | .arr _ => true
  | _ => false

/-- Whether the value is the JavaScript value undefined. -/
def JsValue.isUndefined : JsValue → Bool
  | .undefined => true
  | _ => false

/-- Model of object.hasOwnProperty(name).  On a plain object it looks the
key up among the own fields; arrays and strings own their numeric indices
and a length field; other primitives own nothing.  (The null and
undefined cases, on which JavaScript throws, are handled by the caller
validateProperty before this function is reached.) -/
def hasOwnProp : JsValue → String → Bool
  | .obj fields, name => (fields.lookup name).isSome
  | .arr xs, name =>
      name == "length" ||
        (match name.toNat? with
          | some i => i < xs.length
          | none => false)
  | .str s, name =>
      name == "length" ||
        (match name.toNat? with
          | some i => i < s.length
          | none => false)
  | _, _ => false

/-- Model of the property read object[name], used by validateProperty
after hasOwnProperty has succeeded. -/
def getProp : JsValue → String → JsValue
  | .obj fields, name => ((fields.lookup name).getD .undefined)
  | .arr xs, name =>
      if name == "length" then .num xs.length
      else
        (match name.toNat? with
          | some i => (xs.get? i).getD .undefined
          | none => .undefined)
  | .str s, name =>
      if name == "length" then .num s.length
      else
        (match name.toNat? with
          | some i =>
              (match s.toList.get? i with
                | some c => .str (String.singleton c)
                | none => .undefined)
          | none => .undefined)
  | _, _ => .undefined

/-- The errors drive.ts can throw: err models a plain
JavaScript Error with the given message, typeError models the TypeError
JavaScript raises when a property of null or undefined is read, and
responseError models ServerConnection.ResponseError built from a
response whose status did not match the expected one. -/
inductive DriveError where
  | err (msg : String) : DriveError
  | typeError (msg : String) : DriveError
  | responseError (status : Nat) (body : JsValue) : DriveError

/-- The single-quote character, used to reproduce the exact error
message strings of drive.ts. -/
def qm : String := String.singleton (Char.ofNat 39)

/-- The message of the error thrown when a required property is absent. -/
def missingPropMsg (name : String) : String :=
  "Missing property " ++ qm ++ name ++ qm

/-- The message of the error thrown when a property has the wrong type. -/
def wrongTypeMsg (name : String) (typeName : String) : String :=
  "Property " ++ qm ++ name ++ qm ++ " is not of type " ++ qm ++ typeName ++ qm

/-- The message of the TypeError JavaScript raises when hasOwnProperty is
read from null or undefined. -/
def readPropMsg : String :=
  "Cannot read properties of null or undefined"

namespace Private

/-- Embedding of Private.validateProperty from drive.ts.  It checks that
the property is an own property of the object and, when a type name is
given, that the value matches it: the type name array requires an array,
the type name object only requires the value not to be the JavaScript
value undefined, and any other type name is compared against typeof.
The source takes a further argument for a list of allowed values; every
call in this repository leaves it at its empty default, so that dead
branch is not modelled.  Reading a property of null or undefined throws
a TypeError in JavaScript, reproduced by the first two cases. -/
def validateProperty (object : JsValue) (name : String)
    (typeName : Option String) : Except DriveError Unit :=
  match object with
  | .undefined => .error (.typeError readPropMsg)
  | .null => .error (.typeError readPropMsg)
  | _ =>
    if !(hasOwnProp object name) then
      .error (.err (missingPropMsg name))
    else
      let value := getProp object name
      match typeName with
      | none => .ok ()
      | some t =>
        let valid :=
          match t with
          | "array" => value.isArr
          | "object" => !value.isUndefined
          | _ => typeofValue value == t
        if !valid then .error (.err (wrongTypeMsg name t))
        else .ok ()

/-- Embedding of Private.validateContentsModel from drive.ts: the five
fields name, path, type, created and last_modified must be strings, and
the three fields mimetype, content and format are checked with the type
name object, that is only for presence with a non-undefined value. -/
def validateContentsModel (model : JsValue) : Except DriveError Unit := do
  validateProperty model "name" (some "string")
  validateProperty model "path" (some "string")
  validateProperty model "type" (some "string")
  validateProperty model "created" (some "string")
  validateProperty model "last_modified" (some "string")
  validateProperty model "mimetype" (some "object")
  validateProperty model "content" (some "object")
  validateProperty model "format" (some "object")

/-- Embedding of Private.validateCheckpointModel from drive.ts: the two
fields id and last_modified must be strings. -/
def validateCheckpointModel (model : JsValue) : Except DriveError Unit := do
  validateProperty model "id" (some "string")
  validateProperty model "last_modified" (some "string")

/-- Model of the JavaScript expression s.indexOf(c): the index of the
first occurrence of the character, or minus one when absent. -/
def jsIndexOf (s : String) (c : Char) : Int :=
  match s.toList.findIdx? (· == c) with
  | some i => (i : Int)
  | none => -1

/-- Embedding of Private.normalizeExtension from drive.ts: a non-empty
extension whose first dot is not at position zero gets a leading dot
prepended; otherwise the extension is returned unchanged.  (The doc
comment of the source mentions lower-casing but the body performs
none.) -/
def normalizeExtension (extension : String) : String :=
  if extension.length > 0 && jsIndexOf extension '.' != 0 then
    "." ++ extension
  else
    extension

end Private

/-- The uppercase hexadecimal digit for a value below sixteen. -/
def hexDigitChar (n : Nat) : Char :=
  if n < 10 then Char.ofNat (48 + n) else Char.ofNat (55 + n)

/-- The UTF-8 bytes of a Unicode code point. -/
def utf8Bytes (n : Nat) : List Nat :=
  if n < 0x80 then [n]
  else if n < 0x800 then
    [0xC0 + n / 0x40, 0x80 + n % 0x40]
  else if n < 0x10000 then
    [0xE0 + n / 0x1000, 0x80 + (n / 0x40) % 0x40, 0x80 + n % 0x40]
  else
    [0xF0 + n / 0x40000, 0x80 + (n / 0x1000) % 0x40,
      0x80 + (n / 0x40) % 0x40, 0x80 + n % 0x40]

/-- Percent-encoding of one byte, with uppercase hexadecimal digits. -/
def pctByte (b : Nat) : String :=
  "%" ++ String.singleton (hexDigitChar (b / 16)) ++
    String.singleton (hexDigitChar (b % 16))

/-- The percent-encoded UTF-8 bytes of one character. -/
def percentEncodeChar (c : Char) : String :=
  String.join ((utf8Bytes c.toNat).map pctByte)

/-- The characters encodeURIComponent leaves unescaped: letters, digits,
and the marks minus, underscore, dot, bang, tilde, star, single quote
and parentheses. -/
def isUriUnreserved (c : Char) : Bool :=
  c.isAlpha || c.isDigit || c == '-' || c == '_' || c == '.' || c == '!' ||
    c == '~' || c == '*' || c == Char.ofNat 39 || c == '(' || c == ')'

/-- Model of the JavaScript function encodeURIComponent, an external
collaborator of drive.ts: unreserved characters pass through and every
other character becomes the percent-encoding of its UTF-8 bytes. -/
def encodeURIComponent (s : String) : String :=
  String.join (s.toList.map fun c =>
    if isUriUnreserved c then String.singleton c else percentEncodeChar c)

/-- Splits a character list at the first occurrence of the three
characters colon slash slash, returning what precedes and what follows;
none when the sequence does not occur. -/
def splitAtProtocol : List Char → Option (List Char × List Char)
  | [] => none
  | ':' :: '/' :: '/' :: rest => some ([], rest)
  | c :: rest =>
    match splitAtProtocol rest with
    | some (pre, post) => some (c :: pre, post)
    | none => none

/-- Splits a leading protocol prefix such as http:// off a URL part,
returning the prefix (empty when there is none) and the remainder. -/
def splitProtocol (s : String) : String × String :=
  match splitAtProtocol s.toList with
  | some (pre, post) => (String.mk pre ++ "://", String.mk post)
  | none => ("", s)

/-- Drops slashes from both ends of a character list. -/
def trimSlashChars (l : List Char) : List Char :=
  ((l.dropWhile (· == '/')).reverse.dropWhile (· == '/')).reverse

/-- Model of URLExt.join from the external package of URL utilities used
by drive.ts: the parts are joined with single slash separators, duplicate
slashes at the seams are collapsed, empty parts vanish, and the protocol
prefix of the first part is kept intact. -/
def urlJoin (parts : List String) : String :=
  match parts with
  | [] => ""
  | first :: rest =>
    let pr := splitProtocol first
    let pieces := (pr.2 :: rest).map (fun s => String.mk (trimSlashChars s.toList))
    pr.1 ++ String.intercalate "/" (pieces.filter (· ≠ ""))

/-- Splits a character list at every occurrence of the separator
character (the semantics of splitting a string on a one-character
separator: n separators yield n plus one pieces). -/
def splitChars (sep : Char) : List Char → List (List Char)
  | [] => [[]]
  | c :: rest =>
    match splitChars sep rest with
    | [] => [[c]]
    | cur :: parts =>
      if c == sep then [] :: cur :: parts
      else (c :: cur) :: parts

/-- Model of URLExt.encodeParts from the same external package, following
its implementation: the path is split on slashes, each segment is passed
through encodeURIComponent, and the segments are rejoined. -/
def encodeParts (url : String) : String :=
  urlJoin ((splitChars '/' url.toList).map
    (fun seg => encodeURIComponent (String.mk seg)))

/-- The characters URLSearchParams leaves unescaped when serializing in
the form-urlencoded convention. -/
def isFormUnreserved (c : Char) : Bool :=
  c.isAlpha || c.isDigit || c == '-' || c == '.' || c == '_' || c == '*'

/-- Model of the form-urlencoded serialization URLSearchParams applies to
a query key or value: space becomes plus and other reserved characters
are percent-encoded. -/
def formUrlEncode (s : String) : String :=
  String.join (s.toList.map fun c =>
    if c == ' ' then "+"
    else if isFormUnreserved c then String.singleton c
    else percentEncodeChar c)

/-- Model of URL.searchParams.append followed by URL.toString on a URL
without a fragment: the key/value pair is appended to the query string,
starting one when the URL has none. -/
def appendQueryParam (url key value : String) : String :=
  let sep := if url.toList.contains '?' then "&" else "?"
  url ++ sep ++ formUrlEncode key ++ "=" ++ formUrlEncode value

/-- The url for the default drive service (constant of drive.ts). -/
def SERVICE_DRIVE_URL : String := "api/contents"

/-- The url for the file access (constant of drive.ts). -/
def FILES_URL : String := "files"

/-- The server settings of the drive.  drive.ts itself reads only the
baseUrl field of ServerConnection.ISettings, so only it is modelled. -/
structure ServerSettings where
  baseUrl : String
deriving DecidableEq

/-- Modelled from the spec: the HTTP response of the remote server, as
handed back by ServerConnection.makeRequest (src/serverconnection.ts is
not among the sources under src/).  Per the spec the transport issues
one request and returns the response; the parsed JSON body stands for
response.json(). -/
structure HttpResponse where
  status : Nat
  body : JsValue

/-- The one HTTP request an operation hands to the transport: its URL,
method, JSON body (the value serialized by JSON.stringify in the source)
and, for get, the flattened query parameters. -/
structure RequestInfo where
  url : String
  method : String
  body : Option JsValue
  params : List (String × String)

/-- The tag of a change event emitted on the fileChanged signal. -/
inductive ChangeType where
  | new : ChangeType
  | delete : ChangeType
  | rename : ChangeType
  | save : ChangeType
deriving DecidableEq

/-- One change event, as emitted on the fileChanged signal: the none
cases of oldValue and newValue stand for the JavaScript value null in
the emitted record. -/
structure ChangedArgs where
  type : ChangeType
  oldValue : Option JsValue
  newValue : Option JsValue

/-- The fetch options of Drive.get (Contents.IFetchOptions): all three
fields are optional in the source. -/
structure FetchOptions where
  type : Option String
  format : Option String
  content : Option Bool
deriving DecidableEq

/-- The creation options of Drive.newUntitled (Contents.ICreateOptions):
all three fields are optional in the source. -/
structure CreateOptions where
  path : Option String
  type : Option String
  ext : Option String
deriving DecidableEq

/-- The outcome of one adapter operation: the value returned or error
thrown, the request handed to the transport (none when the operation
failed before issuing any request), and the change events emitted on the
fileChanged signal, in emission order. -/
structure OpOutcome (α : Type) where
  result : Except DriveError α
  request : Option RequestInfo
  events : List ChangedArgs

namespace Drive

/-- Embedding of the private method Drive._getUrl: every path argument is
percent-encoded per segment, and when baseUrl is empty the configuration
error is thrown before any request can be issued; otherwise the base
URL, the api endpoint and the encoded parts are joined. -/
def _getUrl (settings : ServerSettings) (apiEndpoint : String)
    (args : List String) : Except DriveError String :=
  let parts := args.map encodeParts
  if settings.baseUrl == "" then
    .error (.err "Jupyter server URL not set")
  else
    .ok (urlJoin (settings.baseUrl :: apiEndpoint :: parts))

/-- The query parameters Drive.get builds from its options: the object
spread of the options with the content flag overwritten by the literal
string 1 or 0. -/
def fetchParams (options : FetchOptions) : List (String × String) :=
  (match options.type with | some t => [("type", t)] | none => []) ++
  (match options.format with | some f => [("format", f)] | none => []) ++
  [("content", if options.content == some true then "1" else "0")]

/-- The outcome of Drive.get, which mutates its caller-supplied options
(finalOptions is the options object as the caller observes it after the
call). -/
structure GetOutcome where
  result : Except DriveError JsValue
  request : Option RequestInfo
  finalOptions : Option FetchOptions
  events : List ChangedArgs

/-- Embedding of Drive.get: the URL is built first (throwing when baseUrl
is empty), then for the notebook type the format option is deleted from
the caller options, the request is issued, a status other than 200
becomes a ResponseError, and the parsed body is returned unchanged after
validateContentsModel has accepted it. -/
def get (settings : ServerSettings) (apiEndpoint : String) (localPath : String)
    (options : Option FetchOptions) (response : HttpResponse) : GetOutcome :=
  match _getUrl settings apiEndpoint [localPath] with
  | .error e => ⟨.error e, none, options, []⟩
  | .ok url =>
    let options :=
      match options with
      | some o =>
          some (if o.type == some "notebook" then { o with format := none } else o)
      | none => none
    let params :=
      match options with
      | some o => fetchParams o
      | none => []
    let req : RequestInfo := ⟨url, "GET", none, params⟩
    if response.status != 200 then
      ⟨.error (.responseError response.status response.body), some req, options, []⟩
    else
      match Private.validateContentsModel response.body with
      | .error e => ⟨.error e, some req, options, []⟩
      | .ok _ => ⟨.ok response.body, some req, options, []⟩

/-- Embedding of Drive.getDownloadUrl: no request is issued; the URL is
the join of baseUrl, the files prefix and the per-segment encoded path,
and when the anti-forgery cookie is present (xsrfToken models the match
of document.cookie against the _xsrf pattern) its token is appended as a
query parameter. -/
def getDownloadUrl (settings : ServerSettings) (localPath : String)
    (xsrfToken : Option String) : String :=
  let url := urlJoin [settings.baseUrl, FILES_URL, encodeParts localPath]
  match xsrfToken with
  | none => url
  | some tok => appendQueryParam url "_xsrf" tok

/-- The JSON body JSON.stringify produces from the creation options: the
fields that are present, in declaration order. -/
def createOptionsToJson (o : CreateOptions) : JsValue :=
  .obj ((match o.path with | some p => [("path", JsValue.str p)] | none => []) ++
    (match o.type with | some t => [("type", JsValue.str t)] | none => []) ++
    (match o.ext with | some e => [("ext", JsValue.str e)] | none => []))

/-- The outcome of Drive.newUntitled, which mutates its caller-supplied
options (finalOptions is the options object as the caller observes it
after the call). -/
structure NewUntitledOutcome where
  result : Except DriveError JsValue
  request : Option RequestInfo
  finalOptions : CreateOptions
  events : List ChangedArgs

/-- Embedding of Drive.newUntitled: a truthy (present and non-empty)
extension is overwritten in the caller options with its normalization,
the options are serialized as the POST body, the URL targets the path
option (defaulting to the empty string), a status other than 201 becomes
a ResponseError, and after validation a change event tagged new carrying
the validated body is emitted. -/
def newUntitled (settings : ServerSettings) (apiEndpoint : String)
    (options : CreateOptions) (response : HttpResponse) : NewUntitledOutcome :=
  let options :=
    match options.ext with
    | some e =>
        if e != "" then { options with ext := some (Private.normalizeExtension e) }
        else options
    | none => options
  let body := createOptionsToJson options
  match _getUrl settings apiEndpoint [options.path.getD ""] with
  | .error e => ⟨.error e, none, options, []⟩
  | .ok url =>
    let req : RequestInfo := ⟨url, "POST", some body, []⟩
    if response.status != 201 then
      ⟨.error (.responseError response.status response.body), some req, options, []⟩
    else
      match Private.validateContentsModel response.body with
      | .error e => ⟨.error e, some req, options, []⟩
      | .ok _ =>
          ⟨.ok response.body, some req, options,
            [⟨.new, none, some response.body⟩]⟩

/-- Embedding of Drive.delete: DELETE on the path, a status other than
204 becomes a ResponseError, and on success a change event tagged delete
whose oldValue is the object with the path argument and whose newValue
is null is emitted. -/
def delete (settings : ServerSettings) (apiEndpoint : String)
    (localPath : String) (response : HttpResponse) : OpOutcome Unit :=
  match _getUrl settings apiEndpoint [localPath] with
  | .error e => ⟨.error e, none, []⟩
  | .ok url =>
    let req : RequestInfo := ⟨url, "DELETE", none, []⟩
    if response.status != 204 then
      ⟨.error (.responseError response.status response.body), some req, []⟩
    else
      ⟨.ok (), some req,
        [⟨.delete, some (.obj [("path", .str localPath)]), none⟩]⟩

/-- Embedding of Drive.rename: PATCH on the old path with the new path
as body, a status other than 200 becomes a ResponseError, and after
validation a change event tagged rename from the old path to the
validated body is emitted. -/
def rename (settings : ServerSettings) (apiEndpoint : String)
    (oldLocalPath : String) (newLocalPath : String) (response : HttpResponse) :
    OpOutcome JsValue :=
  match _getUrl settings apiEndpoint [oldLocalPath] with
  | .error e => ⟨.error e, none, []⟩
  | .ok url =>
    let req : RequestInfo :=
      ⟨url, "PATCH", some (.obj [("path", .str newLocalPath)]), []⟩
    if response.status != 200 then
      ⟨.error (.responseError response.status response.body), some req, []⟩
    else
      match Private.validateContentsModel response.body with
      | .error e => ⟨.error e, some req, []⟩
      | .ok _ =>
          ⟨.ok response.body, some req,
            [⟨.rename, some (.obj [("path", .str oldLocalPath)]),
              some response.body⟩]⟩

/-- Embedding of Drive.save: PUT on the path with the partial model as
body, a status other than 200 and 201 becomes a ResponseError, and after
validation a change event tagged save carrying the validated body is
emitted. -/
def save (settings : ServerSettings) (apiEndpoint : String)
    (localPath : String) (options : JsValue) (response : HttpResponse) :
    OpOutcome JsValue :=
  match _getUrl settings apiEndpoint [localPath] with
  | .error e => ⟨.error e, none, []⟩
  | .ok url =>
    let req : RequestInfo := ⟨url, "PUT", some options, []⟩
    if response.status != 200 && response.status != 201 then
      ⟨.error (.responseError response.status response.body), some req, []⟩
    else
      match Private.validateContentsModel response.body with
      | .error e => ⟨.error e, some req, []⟩
      | .ok _ =>
          ⟨.ok response.body, some req, [⟨.save, none, some response.body⟩]⟩

/-- Embedding of Drive.copy: POST on the destination directory with the
copy_from body, a status other than 201 becomes a ResponseError, and
after validation a change event tagged new carrying the validated body
is emitted. -/
def copy (settings : ServerSettings) (apiEndpoint : String)
    (fromFile : String) (toDir : String) (response : HttpResponse) :
    OpOutcome JsValue :=
  match _getUrl settings apiEndpoint [toDir] with
  | .error e => ⟨.error e, none, []⟩
  | .ok url =>
    let req : RequestInfo :=
      ⟨url, "POST", some (.obj [("copy_from", .str fromFile)]), []⟩
    if response.status != 201 then
      ⟨.error (.responseError response.status response.body), some req, []⟩
    else
      match Private.validateContentsModel response.body with
      | .error e => ⟨.error e, some req, []⟩
      | .ok _ =>
          ⟨.ok response.body, some req, [⟨.new, none, some response.body⟩]⟩

/-- Embedding of Drive.createCheckpoint: POST on the checkpoints
sub-resource, a status other than 201 becomes a ResponseError, and the
body is returned after validateCheckpointModel has accepted it; no event
is emitted. -/
def createCheckpoint (settings : ServerSettings) (apiEndpoint : String)
    (localPath : String) (response : HttpResponse) : OpOutcome JsValue :=
  match _getUrl settings apiEndpoint [localPath, "checkpoints"] with
  | .error e => ⟨.error e, none, []⟩
  | .ok url =>
    let req : RequestInfo := ⟨url, "POST", none, []⟩
    if response.status != 201 then
      ⟨.error (.responseError response.status response.body), some req, []⟩
    else
      match Private.validateCheckpointModel response.body with
      | .error e => ⟨.error e, some req, []⟩
      | .ok _ => ⟨.ok response.body, some req, []⟩

/-- The for loop of Drive.listCheckpoints: each element is validated in
order and the first failure aborts. -/
def validateEachCheckpoint : List JsValue → Except DriveError Unit
  | [] => .ok ()
  | x :: rest =>
    match Private.validateCheckpointModel x with
    | .error e => .error e
    | .ok _ => validateEachCheckpoint rest

/-- Embedding of Drive.listCheckpoints: GET on the checkpoints
sub-resource, a status other than 200 becomes a ResponseError, a
non-array body throws the distinct Invalid Checkpoint list error, each
element is validated in order, and the array is returned as the server
sent it; no event is emitted. -/
def listCheckpoints (settings : ServerSettings) (apiEndpoint : String)
    (localPath : String) (response : HttpResponse) : OpOutcome (List JsValue) :=
  match _getUrl settings apiEndpoint [localPath, "checkpoints"] with
  | .error e => ⟨.error e, none, []⟩
  | .ok url =>
    let req : RequestInfo := ⟨url, "GET", none, []⟩
    if response.status != 200 then
      ⟨.error (.responseError response.status response.body), some req, []⟩
    else
      match response.body with
      | .arr xs =>
        (match validateEachCheckpoint xs with
          | .error e => ⟨.error e, some req, []⟩
          | .ok _ => ⟨.ok xs, some req, []⟩)
      | _ => ⟨.error (.err "Invalid Checkpoint list"), some req, []⟩

/-- Embedding of Drive.restoreCheckpoint: POST on the checkpoint
sub-resource of the given id; a status other than 204 becomes a
ResponseError; no event is emitted. -/
def restoreCheckpoint (settings : ServerSettings) (apiEndpoint : String)
    (localPath : String) (checkpointID : String) (response : HttpResponse) :
    OpOutcome Unit :=
  match _getUrl settings apiEndpoint [localPath, "checkpoints", checkpointID] with
  | .error e => ⟨.error e, none, []⟩
  | .ok url =>
    let req : RequestInfo := ⟨url, "POST", none, []⟩
    if response.status != 204 then
      ⟨.error (.responseError response.status response.body), some req, []⟩
    else
      ⟨.ok (), some req, []⟩

/-- Embedding of Drive.deleteCheckpoint: DELETE on the checkpoint
sub-resource of the given id; a status other than 204 becomes a
ResponseError; no event is emitted. -/
def deleteCheckpoint (settings : ServerSettings) (apiEndpoint : String)
    (localPath : String) (checkpointID : String) (response : HttpResponse) :
    OpOutcome Unit :=
  match _getUrl settings apiEndpoint [localPath, "checkpoints", checkpointID] with
  | .error e => ⟨.error e, none, []⟩
  | .ok url =>
    let req : RequestInfo := ⟨url, "DELETE", none, []⟩
    if response.status != 204 then
      ⟨.error (.responseError response.status response.body), some req, []⟩
    else
      ⟨.ok (), some req, []⟩

/-- The mutable state drive.ts keeps on the Drive instance that the
lifecycle touches: the _isDisposed flag and the connection data of the
fileChanged signal (listeners are modelled as opaque identifiers, since
Signal.clearData only removes them wholesale). -/
structure DriveState where
  isDisposed : Bool
  listeners : List Nat
deriving DecidableEq

/-- Embedding of Drive.dispose: a second call returns early; the first
call sets the disposed flag and clears the signal data. -/
def dispose (s : DriveState) : DriveState :=
  if s.isDisposed then s
  else { isDisposed := true, listeners := [] }

end Drive

/-- The operations of the Drive class, used to state that only dispose
touches the lifecycle state. -/
inductive DriveOp where
  | get : DriveOp
  | newUntitled : DriveOp
  | delete : DriveOp
  | rename : DriveOp
  | save : DriveOp
  | copy : DriveOp
  | createCheckpoint : DriveOp
  | listCheckpoints : DriveOp
  | restoreCheckpoint : DriveOp
  | deleteCheckpoint : DriveOp
  | getDownloadUrl : DriveOp
  | dispose : DriveOp
deriving DecidableEq

/-- The effect of each operation on the lifecycle state of the drive: no
method body of the source other than dispose assigns to _isDisposed or
touches the signal connection data (the network methods only read the
settings and emit on the signal, which leaves the set of connected
listeners unchanged), so every operation but dispose is the identity on
DriveState. -/
def applyOp : DriveOp → Drive.DriveState → Drive.DriveState
  | .dispose, s => Drive.dispose s
  | _, s => s

/-- A well-formed contents model fixture whose three nullable fields are
the given values; used to probe the validator. -/
def modelWith (mv cv fv : JsValue) : JsValue :=
  .obj [("name", .str "f.txt"), ("path", .str "d/f.txt"),
    ("type", .str "file"), ("created", .str "2022-01-01T00:00:00Z"),
    ("last_modified", .str "2022-01-02T00:00:00Z"),
    ("mimetype", mv), ("content", cv), ("format", fv)]

theorem length_pos_of_ne_empty (s : String) (h : s ≠ "") : 0 < s.length := by
  cases s with
  | mk data =>
    cases data with
    | nil => exact absurd rfl h
    | cons c cs => simp [String.length]

theorem findIdx?_le_of_eq_some {α : Type} (p : α → Bool) :
    ∀ (l : List α) (i j : Nat), List.findIdx? p l i = some j → i ≤ j := by
  intro l
  induction l with
  | nil => intro i j h; simp [List.findIdx?_nil] at h
  | cons a as ih =>
    intro i j h
    rw [List.findIdx?_cons] at h
    by_cases hp : p a
    · simp [hp] at h; omega
    · simp [hp] at h
      obtain ⟨a, -, hj⟩ := h
      omega

theorem jsIndexOf_eq_zero_iff (s : String) (c : Char) :
    Private.jsIndexOf s c = 0 ↔ s.toList.head? = some c := by
  unfold Private.jsIndexOf
  cases h : s.toList with
  | nil => simp [List.findIdx?_nil]
  | cons a as =>
    rw [List.findIdx?_cons]
    by_cases hc : a = c
    · subst hc; simp
    · have hb : (a == c) = false := by simp [hc]
      rw [hb]
      simp only [Bool.false_eq_true, if_false]
      constructor
      · intro hmatch
        exfalso
        cases hfi : List.findIdx? (· == c) as 1 with
        | none => rw [hfi] at hmatch; simp at hmatch
        | some j =>
          rw [hfi] at hmatch
          have hj : 1 ≤ j := findIdx?_le_of_eq_some _ as 1 j hfi
          simp at hmatch
          omega
      · intro hh
        simp at hh
        exact absurd hh hc

theorem _getUrl_ok (s : ServerSettings) (ep : String) (args : List String)
    (h : s.baseUrl ≠ "") :
    Drive._getUrl s ep args =
      .ok (urlJoin (s.baseUrl :: ep :: args.map encodeParts)) := by
  simp [Drive._getUrl, h]

theorem _getUrl_err (s : ServerSettings) (ep : String) (args : List String)
    (h : s.baseUrl = "") :
    Drive._getUrl s ep args = .error (.err "Jupyter server URL not set") := by
  simp [Drive._getUrl, h]

theorem newUntitled_ok_iff (s : ServerSettings) (ep : String) (co : CreateOptions)
    (r : HttpResponse) (m : JsValue) :
    (Drive.newUntitled s ep co r).result = .ok m ↔
      s.baseUrl ≠ "" ∧ r.status = 201 ∧
        Private.validateContentsModel r.body = .ok () ∧ r.body = m := by
  by_cases hb : s.baseUrl = ""
  · simp [Drive.newUntitled, _getUrl_err _ _ _ hb, hb]
  · by_cases hs : r.status = 201
    · cases hv : Private.validateContentsModel r.body with
      | error e => simp [Drive.newUntitled, _getUrl_ok _ _ _ hb, hb, hs, hv]
      | ok u =>
        cases u
        simp [Drive.newUntitled, _getUrl_ok _ _ _ hb, hb, hs, hv]
    · simp [Drive.newUntitled, _getUrl_ok _ _ _ hb, hb, hs]

theorem get_ok_iff (s : ServerSettings) (ep p : String) (fo : Option FetchOptions)
    (r : HttpResponse) (m : JsValue) :
    (Drive.get s ep p fo r).result = .ok m ↔
      s.baseUrl ≠ "" ∧ r.status = 200 ∧
        Private.validateContentsModel r.body = .ok () ∧ r.body = m := by
  by_cases hb : s.baseUrl = ""
  · simp [Drive.get, _getUrl_err _ _ _ hb, hb]
  · by_cases hs : r.status = 200
    · cases hv : Private.validateContentsModel r.body with
      | error e => simp [Drive.get, _getUrl_ok _ _ _ hb, hb, hs, hv]
      | ok u =>
        cases u
        simp [Drive.get, _getUrl_ok _ _ _ hb, hb, hs, hv]
    · simp [Drive.get, _getUrl_ok _ _ _ hb, hb, hs]

theorem get_events_nil (s : ServerSettings) (ep p : String) (fo : Option FetchOptions)
    (r : HttpResponse) : (Drive.get s ep p fo r).events = [] := by
  by_cases hb : s.baseUrl = ""
  · simp [Drive.get, _getUrl_err _ _ _ hb]
  · by_cases hs : r.status = 200
    · cases hv : Private.validateContentsModel r.body with
      | error e => simp [Drive.get, _getUrl_ok _ _ _ hb, hs, hv]
      | ok u =>
        cases u
        simp [Drive.get, _getUrl_ok _ _ _ hb, hs, hv]
    · simp [Drive.get, _getUrl_ok _ _ _ hb, hs]

theorem newUntitled_events_spec (s : ServerSettings) (ep : String)
    (co : CreateOptions) (r : HttpResponse) :
    ((Drive.newUntitled s ep co r).result = .ok r.body ∧
      (Drive.newUntitled s ep co r).events = [⟨.new, none, some r.body⟩])
    ∨ ((∃ e, (Drive.newUntitled s ep co r).result = .error e) ∧
        (Drive.newUntitled s ep co r).events = []) := by
  by_cases hb : s.baseUrl = ""
  · right; simp [Drive.newUntitled, _getUrl_err _ _ _ hb]
  · by_cases hs : r.status = 201
    · cases hv : Private.validateContentsModel r.body with
      | error e => right; simp [Drive.newUntitled, _getUrl_ok _ _ _ hb, hs, hv]
      | ok u =>
        cases u
        left
        simp [Drive.newUntitled, _getUrl_ok _ _ _ hb, hs, hv]
    · right; simp [Drive.newUntitled, _getUrl_ok _ _ _ hb, hs]

theorem rename_ok_iff (s : ServerSettings) (ep oldp newp : String)
    (r : HttpResponse) (m : JsValue) :
    (Drive.rename s ep oldp newp r).result = .ok m ↔
      s.baseUrl ≠ "" ∧ r.status = 200 ∧
        Private.validateContentsModel r.body = .ok () ∧ r.body = m := by
  by_cases hb : s.baseUrl = ""
  · simp [Drive.rename, _getUrl_err _ _ _ hb, hb]
  · by_cases hs : r.status = 200
    · cases hv : Private.validateContentsModel r.body with
      | error e => simp [Drive.rename, _getUrl_ok _ _ _ hb, hb, hs, hv]
      | ok u =>
        cases u
        simp [Drive.rename, _getUrl_ok _ _ _ hb, hb, hs, hv]
    · simp [Drive.rename, _getUrl_ok _ _ _ hb, hb, hs]

theorem rename_events_spec (s : ServerSettings) (ep oldp newp : String)
    (r : HttpResponse) :
    ((Drive.rename s ep oldp newp r).result = .ok r.body ∧
      (Drive.rename s ep oldp newp r).events =
        [⟨.rename, some (.obj [("path", .str oldp)]), some r.body⟩])
    ∨ ((∃ e, (Drive.rename s ep oldp newp r).result = .error e) ∧
        (Drive.rename s ep oldp newp r).events = []) := by
  by_cases hb : s.baseUrl = ""
  · right; simp [Drive.rename, _getUrl_err _ _ _ hb]
  · by_cases hs : r.status = 200
    · cases hv : Private.validateContentsModel r.body with
      | error e => right; simp [Drive.rename, _getUrl_ok _ _ _ hb, hs, hv]
      | ok u =>
        cases u
        left
        simp [Drive.rename, _getUrl_ok _ _ _ hb, hs, hv]
    · right; simp [Drive.rename, _getUrl_ok _ _ _ hb, hs]

theorem save_ok_iff (s : ServerSettings) (ep p : String) (so : JsValue)
    (r : HttpResponse) (m : JsValue) :
    (Drive.save s ep p so r).result = .ok m ↔
      s.baseUrl ≠ "" ∧ (r.status = 200 ∨ r.status = 201) ∧
        Private.validateContentsModel r.body = .ok () ∧ r.body = m := by
  by_cases hb : s.baseUrl = ""
  · simp [Drive.save, _getUrl_err _ _ _ hb, hb]
  · by_cases hs : r.status = 200 ∨ r.status = 201
    · have hcond : (r.status != 200 && r.status != 201) = false := by
        rcases hs with h | h <;> simp [h]
      cases hv : Private.validateContentsModel r.body with
      | error e => simp [Drive.save, _getUrl_ok _ _ _ hb, hb, hs, hcond, hv]
      | ok u =>
        cases u
        simp [Drive.save, _getUrl_ok _ _ _ hb, hb, hs, hcond, hv]
    · have hcond : (r.status != 200 && r.status != 201) = true := by
        push_neg at hs
        simp [hs.1, hs.2]
      simp [Drive.save, _getUrl_ok _ _ _ hb, hb, hs, hcond]

theorem save_events_spec (s : ServerSettings) (ep p : String) (so : JsValue)
    (r : HttpResponse) :
    ((Drive.save s ep p so r).result = .ok r.body ∧
      (Drive.save s ep p so r).events = [⟨.save, none, some r.body⟩])
    ∨ ((∃ e, (Drive.save s ep p so r).result = .error e) ∧
        (Drive.save s ep p so r).events = []) := by
  by_cases hb : s.baseUrl = ""
  · right; simp [Drive.save, _getUrl_err _ _ _ hb]
  · by_cases hs : r.status = 200 ∨ r.status = 201
    · have hcond : (r.status != 200 && r.status != 201) = false := by
        rcases hs with h | h <;> simp [h]
      cases hv : Private.validateContentsModel r.body with
      | error e => right; simp [Drive.save, _getUrl_ok _ _ _ hb, hcond, hv]
      | ok u =>
        cases u
        left
        simp [Drive.save, _getUrl_ok _ _ _ hb, hcond, hv]
    · have hcond : (r.status != 200 && r.status != 201) = true := by
        push_neg at hs
        simp [hs.1, hs.2]
      right; simp [Drive.save, _getUrl_ok _ _ _ hb, hcond]

theorem copy_ok_iff (s : ServerSettings) (ep fsrc fdst : String)
    (r : HttpResponse) (m : JsValue) :
    (Drive.copy s ep fsrc fdst r).result = .ok m ↔
      s.baseUrl ≠ "" ∧ r.status = 201 ∧
        Private.validateContentsModel r.body = .ok () ∧ r.body = m := by
  by_cases hb : s.baseUrl = ""
  · simp [Drive.copy, _getUrl_err _ _ _ hb, hb]
  · by_cases hs : r.status = 201
    · cases hv : Private.validateContentsModel r.body with
      | error e => simp [Drive.copy, _getUrl_ok _ _ _ hb, hb, hs, hv]
      | ok u =>
        cases u
        simp [Drive.copy, _getUrl_ok _ _ _ hb, hb, hs, hv]
    · simp [Drive.copy, _getUrl_ok _ _ _ hb, hb, hs]

theorem copy_events_spec (s : ServerSettings) (ep fsrc fdst : String)
    (r : HttpResponse) :
    ((Drive.copy s ep fsrc fdst r).result = .ok r.body ∧
      (Drive.copy s ep fsrc fdst r).events = [⟨.new, none, some r.body⟩])
    ∨ ((∃ e, (Drive.copy s ep fsrc fdst r).result = .error e) ∧
        (Drive.copy s ep fsrc fdst r).events = []) := by
  by_cases hb : s.baseUrl = ""
  · right; simp [Drive.copy, _getUrl_err _ _ _ hb]
  · by_cases hs : r.status = 201
    · cases hv : Private.validateContentsModel r.body with
      | error e => right; simp [Drive.copy, _getUrl_ok _ _ _ hb, hs, hv]
      | ok u =>
        cases u
        left
        simp [Drive.copy, _getUrl_ok _ _ _ hb, hs, hv]
    · right; simp [Drive.copy, _getUrl_ok _ _ _ hb, hs]

theorem delete_ok_iff (s : ServerSettings) (ep p : String) (r : HttpResponse) :
    (Drive.delete s ep p r).result = .ok () ↔
      s.baseUrl ≠ "" ∧ r.status = 204 := by
  by_cases hb : s.baseUrl = ""
  · simp [Drive.delete, _getUrl_err _ _ _ hb, hb]
  · by_cases hs : r.status = 204
    · simp [Drive.delete, _getUrl_ok _ _ _ hb, hb, hs]
    · simp [Drive.delete, _getUrl_ok _ _ _ hb, hb, hs]

theorem delete_events_spec (s : ServerSettings) (ep p : String) (r : HttpResponse) :
    ((Drive.delete s ep p r).result = .ok () ∧
      (Drive.delete s ep p r).events =
        [⟨.delete, some (.obj [("path", .str p)]), none⟩])
    ∨ ((∃ e, (Drive.delete s ep p r).result = .error e) ∧
        (Drive.delete s ep p r).events = []) := by
  by_cases hb : s.baseUrl = ""
  · right; simp [Drive.delete, _getUrl_err _ _ _ hb]
  · by_cases hs : r.status = 204
    · left; simp [Drive.delete, _getUrl_ok _ _ _ hb, hs]
    · right; simp [Drive.delete, _getUrl_ok _ _ _ hb, hs]

theorem validateEachCheckpoint_ok (xs : List JsValue)
    (h : ∀ x ∈ xs, Private.validateCheckpointModel x = .ok ()) :
    Drive.validateEachCheckpoint xs = .ok () := by
  induction xs with
  | nil => rfl
  | cons a as ih =>
    unfold Drive.validateEachCheckpoint
    rw [h a (by simp)]
    exact ih (fun x hx => h x (by simp [hx]))

theorem validateProperty_error_shape (o : JsValue) (n t : String) (e : DriveError)
    (h : Private.validateProperty o n (some t) = .error e) :
    e = .typeError readPropMsg ∨ e = .err (missingPropMsg n) ∨
      e = .err (wrongTypeMsg n t) := by
  unfold Private.validateProperty at h
  cases o <;> simp_all <;> split at h <;> simp_all <;> split at h <;> simp_all

theorem validateCheckpointModel_error_shape (v : JsValue) (e : DriveError)
    (h : Private.validateCheckpointModel v = .error e) :
    e = .typeError readPropMsg ∨
      e = .err (missingPropMsg "id") ∨ e = .err (wrongTypeMsg "id" "string") ∨
      e = .err (missingPropMsg "last_modified") ∨
      e = .err (wrongTypeMsg "last_modified" "string") := by
  unfold Private.validateCheckpointModel at h
  cases h1 : Private.validateProperty v "id" (some "string") with
  | error e1 =>
    rw [h1] at h
    have he : e1 = e := by
      have : ((Except.error e1 : Except DriveError Unit) >>= fun _ =>
          Private.validateProperty v "last_modified" (some "string")) =
          (Except.error e1 : Except DriveError Unit) := rfl
      rw [this] at h
      exact (Except.error.inj h)
    subst he
    rcases validateProperty_error_shape v "id" "string" e1 h1 with h2 | h2 | h2
    · exact Or.inl h2
    · exact Or.inr (Or.inl h2)
    · exact Or.inr (Or.inr (Or.inl h2))
  | ok u =>
    cases u
    rw [h1] at h
    have hred : ((Except.ok () : Except DriveError Unit) >>= fun _ =>
        Private.validateProperty v "last_modified" (some "string")) =
        Private.validateProperty v "last_modified" (some "string") := rfl
    rw [hred] at h
    rcases validateProperty_error_shape v "last_modified" "string" e h with h2 | h2 | h2
    · exact Or.inl h2
    · exact Or.inr (Or.inr (Or.inr (Or.inl h2)))
    · exact Or.inr (Or.inr (Or.inr (Or.inr h2)))

theorem applyOp_preserves_disposed (op : DriveOp) (st : Drive.DriveState)
    (h : st.isDisposed = true) : (applyOp op st).isDisposed = true := by
  cases op <;> simp [applyOp, Drive.dispose, h]

/-- C5: extension normalization for newUntitled: a non-empty extension that
does not start with a dot gets a dot prepended, an extension already
starting with a dot is sent unchanged, the empty string is sent unchanged,
and letter case is preserved (the result is always the input itself or the
input with a dot prepended, never case-folded); the concrete clauses show
the extension newUntitled records in the caller options it sends. -/
theorem newUntitled_normalizes_extension :
    (∀ ext : String, ext ≠ "" → ext.toList.head? ≠ some '.' →
      Private.normalizeExtension ext = "." ++ ext)
    ∧ (∀ ext : String, ext.toList.head? = some '.' →
      Private.normalizeExtension ext = ext)
    ∧ Private.normalizeExtension "" = ""
    ∧ (∀ ext : String, Private.normalizeExtension ext = ext ∨
        Private.normalizeExtension ext = "." ++ ext)
    ∧ (Drive.newUntitled ⟨"http://h:8000/"⟩ SERVICE_DRIVE_URL
        ⟨none, none, some "py"⟩ ⟨201, .null⟩).finalOptions.ext = some ".py"
    ∧ (Drive.newUntitled ⟨"http://h:8000/"⟩ SERVICE_DRIVE_URL
        ⟨none, none, some ".py"⟩ ⟨201, .null⟩).finalOptions.ext = some ".py"
    ∧ (Drive.newUntitled ⟨"http://h:8000/"⟩ SERVICE_DRIVE_URL
        ⟨none, none, some ""⟩ ⟨201, .null⟩).finalOptions.ext = some ""
    ∧ (Drive.newUntitled ⟨"http://h:8000/"⟩ SERVICE_DRIVE_URL
        ⟨none, none, some "PY"⟩ ⟨201, .null⟩).finalOptions.ext = some ".PY" := by
  refine ⟨?_, ?_, rfl, ?_, rfl, rfl, rfl, rfl⟩
  · intro ext h1 h2
    have hlen := length_pos_of_ne_empty ext h1
    have hidx : Private.jsIndexOf ext '.' ≠ 0 := fun hc =>
      h2 ((jsIndexOf_eq_zero_iff ext '.').mp hc)
    simp [Private.normalizeExtension, hlen, hidx]
  · intro ext h
    have hidx : Private.jsIndexOf ext '.' = 0 := (jsIndexOf_eq_zero_iff ext '.').mpr h
    simp [Private.normalizeExtension, hidx]
  · intro ext
    unfold Private.normalizeExtension
    split
    · right; rfl
    · left; rfl

/-- Witness for C5 at the concrete extensions of the spec. -/
theorem newUntitled_normalizes_extension_witness :
    Private.normalizeExtension "py" = ".py" ∧
      Private.normalizeExtension ".md" = ".md" :=
  ⟨newUntitled_normalizes_extension.1 "py" (by decide) (by decide),
    newUntitled_normalizes_extension.2.1 ".md" (by decide)⟩

/-- C6: getDownloadUrl issues no request (it is a pure function of the
settings, the path and the cookie) and on the documented input yields the
exact URL with the space percent-encoded and the slash kept; with the
anti-forgery cookie present the same URL gains the _xsrf query
parameter carrying the token. -/
theorem getDownloadUrl_exact_url :
    Drive.getDownloadUrl ⟨"http://h:8000/"⟩ "a/b c.txt" none =
      "http://h:8000/files/a/b%20c.txt"
    ∧ ∀ tok : String,
        Drive.getDownloadUrl ⟨"http://h:8000/"⟩ "a/b c.txt" (some tok) =
          "http://h:8000/files/a/b%20c.txt?_xsrf=" ++ formUrlEncode tok := by
  constructor
  · rfl
  · intro tok
    rfl

/-- C7: a successful delete (status 204) returns nothing and emits exactly
one delete event whose oldValue carries the path argument and whose
newValue is null. -/
theorem delete_event_shape (s : ServerSettings) (ep p : String)
    (r : HttpResponse) (hb : s.baseUrl ≠ "") (hs : r.status = 204) :
    (Drive.delete s ep p r).result = .ok () ∧
      (Drive.delete s ep p r).events =
        [⟨.delete, some (.obj [("path", .str p)]), none⟩] := by
  have hok : (Drive.delete s ep p r).result = .ok () :=
    (delete_ok_iff s ep p r).mpr ⟨hb, hs⟩
  refine ⟨hok, ?_⟩
  rcases delete_events_spec s ep p r with ⟨_, hev⟩ | ⟨⟨e, herr⟩, _⟩
  · exact hev
  · rw [hok] at herr
    simp at herr

/-- Witness for C7 at a concrete path and response. -/
theorem delete_event_shape_witness :
    (Drive.delete ⟨"http://h:8000/"⟩ SERVICE_DRIVE_URL "d/f.txt"
        ⟨204, .null⟩).events =
      [⟨.delete, some (.obj [("path", .str "d/f.txt")]), none⟩] :=
  (delete_event_shape ⟨"http://h:8000/"⟩ SERVICE_DRIVE_URL "d/f.txt"
    ⟨204, .null⟩ (by decide) rfl).2

/-- C3: when baseUrl is the empty string, each of the ten network
operations fails with the configuration error (Jupyter server URL not
set) and hands no request to the transport. -/
theorem emptyBaseUrl_fails_before_request (s : ServerSettings)
    (h : s.baseUrl = "") (ep p q cp : String) (fo : Option FetchOptions)
    (co : CreateOptions) (so : JsValue) (r : HttpResponse) :
    ((Drive.get s ep p fo r).result = .error (.err "Jupyter server URL not set")
      ∧ (Drive.get s ep p fo r).request = none)
    ∧ ((Drive.newUntitled s ep co r).result =
          .error (.err "Jupyter server URL not set")
      ∧ (Drive.newUntitled s ep co r).request = none)
    ∧ ((Drive.delete s ep p r).result = .error (.err "Jupyter server URL not set")
      ∧ (Drive.delete s ep p r).request = none)
    ∧ ((Drive.rename s ep p q r).result = .error (.err "Jupyter server URL not set")
      ∧ (Drive.rename s ep p q r).request = none)
    ∧ ((Drive.save s ep p so r).result = .error (.err "Jupyter server URL not set")
      ∧ (Drive.save s ep p so r).request = none)
    ∧ ((Drive.copy s ep p q r).result = .error (.err "Jupyter server URL not set")
      ∧ (Drive.copy s ep p q r).request = none)
    ∧ ((Drive.createCheckpoint s ep p r).result =
          .error (.err "Jupyter server URL not set")
      ∧ (Drive.createCheckpoint s ep p r).request = none)
    ∧ ((Drive.listCheckpoints s ep p r).result =
          .error (.err "Jupyter server URL not set")
      ∧ (Drive.listCheckpoints s ep p r).request = none)
    ∧ ((Drive.restoreCheckpoint s ep p cp r).result =
          .error (.err "Jupyter server URL not set")
      ∧ (Drive.restoreCheckpoint s ep p cp r).request = none)
    ∧ ((Drive.deleteCheckpoint s ep p cp r).result =
          .error (.err "Jupyter server URL not set")
      ∧ (Drive.deleteCheckpoint s ep p cp r).request = none) := by
  refine ⟨⟨?_, ?_⟩, ⟨?_, ?_⟩, ⟨?_, ?_⟩, ⟨?_, ?_⟩, ⟨?_, ?_⟩, ⟨?_, ?_⟩,
    ⟨?_, ?_⟩, ⟨?_, ?_⟩, ⟨?_, ?_⟩, ⟨?_, ?_⟩⟩ <;>
    simp [Drive.get, Drive.newUntitled, Drive.delete, Drive.rename,
      Drive.save, Drive.copy, Drive.createCheckpoint, Drive.listCheckpoints,
      Drive.restoreCheckpoint, Drive.deleteCheckpoint, Drive._getUrl, h]

/-- Witness for C3 at a concrete unset configuration. -/
theorem emptyBaseUrl_fails_before_request_witness :
    (Drive.get ⟨""⟩ SERVICE_DRIVE_URL "a.txt" none ⟨200, .null⟩).result =
      .error (.err "Jupyter server URL not set") :=
  (emptyBaseUrl_fails_before_request ⟨""⟩ rfl SERVICE_DRIVE_URL "a.txt" "b.txt"
    "c1" none ⟨none, none, none⟩ .null ⟨200, .null⟩).1.1

/-- C8: dispose is idempotent and the disposed flag is terminal: the first
dispose sets it, any further sequence of operations leaves it set, a
second dispose changes nothing, and no operation other than dispose
changes the flag. -/
theorem dispose_idempotent_terminal (s : Drive.DriveState) :
    (Drive.dispose s).isDisposed = true
    ∧ Drive.dispose (Drive.dispose s) = Drive.dispose s
    ∧ (∀ ops : List DriveOp,
        (ops.foldl (fun st op => applyOp op st) (Drive.dispose s)).isDisposed
          = true)
    ∧ (∀ op : DriveOp, op ≠ DriveOp.dispose →
        ∀ t : Drive.DriveState, (applyOp op t).isDisposed = t.isDisposed) := by
  have hdisp : (Drive.dispose s).isDisposed = true := by
    unfold Drive.dispose
    split <;> simp_all
  have hfold : ∀ ops : List DriveOp, ∀ t : Drive.DriveState,
      t.isDisposed = true →
      (ops.foldl (fun st op => applyOp op st) t).isDisposed = true := by
    intro ops
    induction ops with
    | nil => intro t ht; exact ht
    | cons o os ih =>
      intro t ht
      exact ih _ (applyOp_preserves_disposed o t ht)
  refine ⟨hdisp, ?_, fun ops => hfold ops _ hdisp, ?_⟩
  · by_cases hc : s.isDisposed <;> simp [Drive.dispose, hc]
  · intro op hop t
    cases op <;> first | rfl | exact absurd rfl hop

/-- Witness for C8: a non-dispose operation on a concrete state leaves the
disposed flag alone. -/
theorem dispose_idempotent_terminal_witness :
    (applyOp DriveOp.get ⟨false, [0]⟩).isDisposed =
      (⟨false, [0]⟩ : Drive.DriveState).isDisposed :=
  (dispose_idempotent_terminal ⟨false, [0]⟩).2.2.2 DriveOp.get (by decide)
    ⟨false, [0]⟩

/-- C1: get on a 200 response whose body passes shape validation returns
exactly the payload the server sent; and every content model returned by
any adapter operation (get, newUntitled, rename, save, copy) is the
response body and has passed shape validation. -/
theorem get_returns_validated_server_payload (s : ServerSettings)
    (ep p oldp newp fsrc fdst : String) (fo : Option FetchOptions)
    (co : CreateOptions) (so : JsValue) (r : HttpResponse) :
    (s.baseUrl ≠ "" → r.status = 200 →
      Private.validateContentsModel r.body = .ok () →
      (Drive.get s ep p fo r).result = .ok r.body)
    ∧ (∀ m, (Drive.get s ep p fo r).result = .ok m →
        m = r.body ∧ Private.validateContentsModel m = .ok ())
    ∧ (∀ m, (Drive.newUntitled s ep co r).result = .ok m →
        m = r.body ∧ Private.validateContentsModel m = .ok ())
    ∧ (∀ m, (Drive.rename s ep oldp newp r).result = .ok m →
        m = r.body ∧ Private.validateContentsModel m = .ok ())
    ∧ (∀ m, (Drive.save s ep p so r).result = .ok m →
        m = r.body ∧ Private.validateContentsModel m = .ok ())
    ∧ (∀ m, (Drive.copy s ep fsrc fdst r).result = .ok m →
        m = r.body ∧ Private.validateContentsModel m = .ok ()) := by
  refine ⟨?_, ?_, ?_, ?_, ?_, ?_⟩
  · intro hb hs hv
    exact (get_ok_iff s ep p fo r r.body).mpr ⟨hb, hs, hv, rfl⟩
  · intro m h
    obtain ⟨-, -, hv, hm⟩ := (get_ok_iff s ep p fo r m).mp h
    exact ⟨hm.symm, hm ▸ hv⟩
  · intro m h
    obtain ⟨-, -, hv, hm⟩ := (newUntitled_ok_iff s ep co r m).mp h
    exact ⟨hm.symm, hm ▸ hv⟩
  · intro m h
    obtain ⟨-, -, hv, hm⟩ := (rename_ok_iff s ep oldp newp r m).mp h
    exact ⟨hm.symm, hm ▸ hv⟩
  · intro m h
    obtain ⟨-, -, hv, hm⟩ := (save_ok_iff s ep p so r m).mp h
    exact ⟨hm.symm, hm ▸ hv⟩
  · intro m h
    obtain ⟨-, -, hv, hm⟩ := (copy_ok_iff s ep fsrc fdst r m).mp h
    exact ⟨hm.symm, hm ▸ hv⟩

/-- Witness for C1 on a concrete well-formed 200 response. -/
theorem get_returns_validated_server_payload_witness :
    (Drive.get ⟨"http://h:8000/"⟩ SERVICE_DRIVE_URL "d/f.txt" none
        ⟨200, modelWith .null .null .null⟩).result =
      .ok (modelWith .null .null .null) :=
  (get_returns_validated_server_payload ⟨"http://h:8000/"⟩ SERVICE_DRIVE_URL
    "d/f.txt" "o" "n" "sf" "dd" none ⟨none, none, none⟩ .null
    ⟨200, modelWith .null .null .null⟩).1 (by decide) rfl (by rfl)

/-- C2: for each mutating operation, a non-matching status or an invalid
body rejects the call with no event emitted, and a success returns the
validated body and emits exactly one event of the correct tag carrying
it; errors never emit, successes always emit exactly once (no partial
outcome). -/
theorem mutating_ops_atomic (s : ServerSettings) (ep p oldp newp fsrc fdst : String)
    (co : CreateOptions) (so : JsValue) (r : HttpResponse) :
    (r.status ≠ 201 →
      (∃ e, (Drive.newUntitled s ep co r).result = .error e) ∧
        (Drive.newUntitled s ep co r).events = [])
    ∧ (∀ e, Private.validateContentsModel r.body = .error e →
        (∃ e2, (Drive.newUntitled s ep co r).result = .error e2) ∧
          (Drive.newUntitled s ep co r).events = [])
    ∧ (∀ m, (Drive.newUntitled s ep co r).result = .ok m →
        m = r.body ∧ Private.validateContentsModel r.body = .ok () ∧
          (Drive.newUntitled s ep co r).events = [⟨.new, none, some m⟩])
    ∧ (∀ e, (Drive.newUntitled s ep co r).result = .error e →
        (Drive.newUntitled s ep co r).events = [])
    ∧ (r.status ≠ 204 →
      (∃ e, (Drive.delete s ep p r).result = .error e) ∧
        (Drive.delete s ep p r).events = [])
    ∧ ((Drive.delete s ep p r).result = .ok () →
        (Drive.delete s ep p r).events =
          [⟨.delete, some (.obj [("path", .str p)]), none⟩])
    ∧ (∀ e, (Drive.delete s ep p r).result = .error e →
        (Drive.delete s ep p r).events = [])
    ∧ (r.status ≠ 200 →
      (∃ e, (Drive.rename s ep oldp newp r).result = .error e) ∧
        (Drive.rename s ep oldp newp r).events = [])
    ∧ (∀ e, Private.validateContentsModel r.body = .error e →
        (∃ e2, (Drive.rename s ep oldp newp r).result = .error e2) ∧
          (Drive.rename s ep oldp newp r).events = [])
    ∧ (∀ m, (Drive.rename s ep oldp newp r).result = .ok m →
        m = r.body ∧ Private.validateContentsModel r.body = .ok () ∧
          (Drive.rename s ep oldp newp r).events =
            [⟨.rename, some (.obj [("path", .str oldp)]), some m⟩])
    ∧ (∀ e, (Drive.rename s ep oldp newp r).result = .error e →
        (Drive.rename s ep oldp newp r).events = [])
    ∧ (¬(r.status = 200 ∨ r.status = 201) →
      (∃ e, (Drive.save s ep p so r).result = .error e) ∧
        (Drive.save s ep p so r).events = [])
    ∧ (∀ e, Private.validateContentsModel r.body = .error e →
        (∃ e2, (Drive.save s ep p so r).result = .error e2) ∧
          (Drive.save s ep p so r).events = [])
    ∧ (∀ m, (Drive.save s ep p so r).result = .ok m →
        m = r.body ∧ Private.validateContentsModel r.body = .ok () ∧
          (Drive.save s ep p so r).events = [⟨.save, none, some m⟩])
    ∧ (∀ e, (Drive.save s ep p so r).result = .error e →
        (Drive.save s ep p so r).events = [])
    ∧ (r.status ≠ 201 →
      (∃ e, (Drive.copy s ep fsrc fdst r).result = .error e) ∧
        (Drive.copy s ep fsrc fdst r).events = [])
    ∧ (∀ e, Private.validateContentsModel r.body = .error e →
        (∃ e2, (Drive.copy s ep fsrc fdst r).result = .error e2) ∧
          (Drive.copy s ep fsrc fdst r).events = [])
    ∧ (∀ m, (Drive.copy s ep fsrc fdst r).result = .ok m →
        m = r.body ∧ Private.validateContentsModel r.body = .ok () ∧
          (Drive.copy s ep fsrc fdst r).events = [⟨.new, none, some m⟩])
    ∧ (∀ e, (Drive.copy s ep fsrc fdst r).result = .error e →
        (Drive.copy s ep fsrc fdst r).events = []) := by
  refine ⟨?_, ?_, ?_, ?_, ?_, ?_, ?_, ?_, ?_, ?_, ?_, ?_, ?_, ?_, ?_, ?_, ?_,
    ?_, ?_⟩
  · intro hs
    rcases newUntitled_events_spec s ep co r with ⟨hok, -⟩ | ⟨he, hev⟩
    · exact absurd ((newUntitled_ok_iff s ep co r r.body).mp hok).2.1 hs
    · exact ⟨he, hev⟩
  · intro e hv
    rcases newUntitled_events_spec s ep co r with ⟨hok, -⟩ | ⟨he, hev⟩
    · have hval := ((newUntitled_ok_iff s ep co r r.body).mp hok).2.2.1
      rw [hval] at hv
      simp at hv
    · exact ⟨he, hev⟩
  · intro m hok
    obtain ⟨-, -, hval, hm⟩ := (newUntitled_ok_iff s ep co r m).mp hok
    subst hm
    rcases newUntitled_events_spec s ep co r with ⟨-, hev⟩ | ⟨⟨e, herr⟩, -⟩
    · exact ⟨rfl, hval, hev⟩
    · rw [hok] at herr
      simp at herr
  · intro e herr
    rcases newUntitled_events_spec s ep co r with ⟨hok, -⟩ | ⟨-, hev⟩
    · rw [hok] at herr
      simp at herr
    · exact hev
  · intro hs
    rcases delete_events_spec s ep p r with ⟨hok, -⟩ | ⟨he, hev⟩
    · exact absurd ((delete_ok_iff s ep p r).mp hok).2 hs
    · exact ⟨he, hev⟩
  · intro hok
    rcases delete_events_spec s ep p r with ⟨-, hev⟩ | ⟨⟨e, herr⟩, -⟩
    · exact hev
    · rw [hok] at herr
      simp at herr
  · intro e herr
    rcases delete_events_spec s ep p r with ⟨hok, -⟩ | ⟨-, hev⟩
    · rw [hok] at herr
      simp at herr
    · exact hev
  · intro hs
    rcases rename_events_spec s ep oldp newp r with ⟨hok, -⟩ | ⟨he, hev⟩
    · exact absurd ((rename_ok_iff s ep oldp newp r r.body).mp hok).2.1 hs
    · exact ⟨he, hev⟩
  · intro e hv
    rcases rename_events_spec s ep oldp newp r with ⟨hok, -⟩ | ⟨he, hev⟩
    · have hval := ((rename_ok_iff s ep oldp newp r r.body).mp hok).2.2.1
      rw [hval] at hv
      simp at hv
    · exact ⟨he, hev⟩
  · intro m hok
    obtain ⟨-, -, hval, hm⟩ := (rename_ok_iff s ep oldp newp r m).mp hok
    subst hm
    rcases rename_events_spec s ep oldp newp r with ⟨-, hev⟩ | ⟨⟨e, herr⟩, -⟩
    · exact ⟨rfl, hval, hev⟩
    · rw [hok] at herr
      simp at herr
  · intro e herr
    rcases rename_events_spec s ep oldp newp r with ⟨hok, -⟩ | ⟨-, hev⟩
    · rw [hok] at herr
      simp at herr
    · exact hev
  · intro hs
    rcases save_events_spec s ep p so r with ⟨hok, -⟩ | ⟨he, hev⟩
    · exact absurd ((save_ok_iff s ep p so r r.body).mp hok).2.1 hs
    · exact ⟨he, hev⟩
  · intro e hv
    rcases save_events_spec s ep p so r with ⟨hok, -⟩ | ⟨he, hev⟩
    · have hval := ((save_ok_iff s ep p so r r.body).mp hok).2.2.1
      rw [hval] at hv
      simp at hv
    · exact ⟨he, hev⟩
  · intro m hok
    obtain ⟨-, -, hval, hm⟩ := (save_ok_iff s ep p so r m).mp hok
    subst hm
    rcases save_events_spec s ep p so r with ⟨-, hev⟩ | ⟨⟨e, herr⟩, -⟩
    · exact ⟨rfl, hval, hev⟩
    · rw [hok] at herr
      simp at herr
  · intro e herr
    rcases save_events_spec s ep p so r with ⟨hok, -⟩ | ⟨-, hev⟩
    · rw [hok] at herr
      simp at herr
    · exact hev
  · intro hs
    rcases copy_events_spec s ep fsrc fdst r with ⟨hok, -⟩ | ⟨he, hev⟩
    · exact absurd ((copy_ok_iff s ep fsrc fdst r r.body).mp hok).2.1 hs
    · exact ⟨he, hev⟩
  · intro e hv
    rcases copy_events_spec s ep fsrc fdst r with ⟨hok, -⟩ | ⟨he, hev⟩
    · have hval := ((copy_ok_iff s ep fsrc fdst r r.body).mp hok).2.2.1
      rw [hval] at hv
      simp at hv
    · exact ⟨he, hev⟩
  · intro m hok
    obtain ⟨-, -, hval, hm⟩ := (copy_ok_iff s ep fsrc fdst r m).mp hok
    subst hm
    rcases copy_events_spec s ep fsrc fdst r with ⟨-, hev⟩ | ⟨⟨e, herr⟩, -⟩
    · exact ⟨rfl, hval, hev⟩
    · rw [hok] at herr
      simp at herr
  · intro e herr
    rcases copy_events_spec s ep fsrc fdst r with ⟨hok, -⟩ | ⟨-, hev⟩
    · rw [hok] at herr
      simp at herr
    · exact hev

/-- Witness for C2: a successful concrete save emits exactly one save
event with the validated body, and a failing concrete newUntitled emits
nothing. -/
theorem mutating_ops_atomic_witness :
    (Drive.save ⟨"http://h:8000/"⟩ SERVICE_DRIVE_URL "d/f.txt" .null
        ⟨200, modelWith .null .null .null⟩).events =
      [⟨.save, none, some (modelWith .null .null .null)⟩]
    ∧ (Drive.newUntitled ⟨"http://h:8000/"⟩ SERVICE_DRIVE_URL
        ⟨none, none, none⟩ ⟨500, .null⟩).events = [] :=
  ⟨((mutating_ops_atomic ⟨"http://h:8000/"⟩ SERVICE_DRIVE_URL "d/f.txt" "o" "n"
      "sf" "dd" ⟨none, none, none⟩ .null
      ⟨200, modelWith .null .null .null⟩).2.2.2.2.2.2.2.2.2.2.2.2.2.1
    (modelWith .null .null .null) (by rfl)).2.2,
   ((mutating_ops_atomic ⟨"http://h:8000/"⟩ SERVICE_DRIVE_URL "d/f.txt" "o" "n"
      "sf" "dd" ⟨none, none, none⟩ .null ⟨500, .null⟩).1 (by decide)).2⟩

/-- C4: listCheckpoints on a 200 response rejects a non-array body with
the distinct Invalid Checkpoint list error, an error no per-item shape
validation failure can produce, and on an array of well-formed
checkpoint objects returns exactly that array, in server order. -/
theorem listCheckpoints_array_contract (s : ServerSettings) (ep p : String)
    (r : HttpResponse) :
    (s.baseUrl ≠ "" → r.status = 200 → (∀ xs, r.body ≠ .arr xs) →
      (Drive.listCheckpoints s ep p r).result =
        .error (.err "Invalid Checkpoint list"))
    ∧ (∀ v e, Private.validateCheckpointModel v = .error e →
        e ≠ .err "Invalid Checkpoint list")
    ∧ (∀ xs, s.baseUrl ≠ "" → r.status = 200 → r.body = .arr xs →
        (∀ x ∈ xs, Private.validateCheckpointModel x = .ok ()) →
        (Drive.listCheckpoints s ep p r).result = .ok xs) := by
  refine ⟨?_, ?_, ?_⟩
  · intro hb hs hnotarr
    cases hbody : r.body
    case arr xs => exact absurd hbody (hnotarr xs)
    all_goals
      simp [Drive.listCheckpoints, _getUrl_ok _ _ _ hb, hs, hbody]
  · intro v e h heq
    subst heq
    rcases validateCheckpointModel_error_shape v _ h with h2 | h2 | h2 | h2 | h2
    · exact DriveError.noConfusion h2
    · exact absurd (DriveError.err.inj h2) (by decide)
    · exact absurd (DriveError.err.inj h2) (by decide)
    · exact absurd (DriveError.err.inj h2) (by decide)
    · exact absurd (DriveError.err.inj h2) (by decide)
  · intro xs hb hs hbody hall
    have hv := validateEachCheckpoint_ok xs hall
    simp [Drive.listCheckpoints, _getUrl_ok _ _ _ hb, hs, hbody, hv]

/-- Witness for C4: a non-array body yields the distinct error and an
array of two well-formed checkpoints is returned whole, in order. -/
theorem listCheckpoints_array_contract_witness :
    (Drive.listCheckpoints ⟨"http://h:8000/"⟩ SERVICE_DRIVE_URL "f.txt"
        ⟨200, .obj []⟩).result = .error (.err "Invalid Checkpoint list")
    ∧ (Drive.listCheckpoints ⟨"http://h:8000/"⟩ SERVICE_DRIVE_URL "f.txt"
        ⟨200, .arr [.obj [("id", .str "a"), ("last_modified", .str "t1")],
          .obj [("id", .str "b"), ("last_modified", .str "t2")]]⟩).result =
      .ok [.obj [("id", .str "a"), ("last_modified", .str "t1")],
        .obj [("id", .str "b"), ("last_modified", .str "t2")]] :=
  ⟨(listCheckpoints_array_contract ⟨"http://h:8000/"⟩ SERVICE_DRIVE_URL "f.txt"
      ⟨200, .obj []⟩).1 (by decide) rfl
      (fun xs h => JsValue.noConfusion h),
   (listCheckpoints_array_contract ⟨"http://h:8000/"⟩ SERVICE_DRIVE_URL "f.txt"
      ⟨200, .arr [.obj [("id", .str "a"), ("last_modified", .str "t1")],
        .obj [("id", .str "b"), ("last_modified", .str "t2")]]⟩).2.2
      [.obj [("id", .str "a"), ("last_modified", .str "t1")],
        .obj [("id", .str "b"), ("last_modified", .str "t2")]]
      (by decide) rfl rfl
      (by
        intro x hx
        simp at hx
        rcases hx with rfl | rfl <;> rfl)⟩

/-- C9: the content-model validator requires the five metadata fields to
be strings but checks mimetype, content and format only for presence
with a non-undefined value (null, numbers, booleans, strings, arrays and
objects all pass there); a present-but-undefined nullable field fails, a
non-string name fails, and a model with a numeric mimetype is accepted
and returned to the caller by get. -/
theorem validateContentsModel_presence_only :
    (∀ mv cv fv : JsValue, mv ≠ .undefined → cv ≠ .undefined → fv ≠ .undefined →
      Private.validateContentsModel (modelWith mv cv fv) = .ok ())
    ∧ Private.validateContentsModel (modelWith .undefined .null .null) =
        .error (.err (wrongTypeMsg "mimetype" "object"))
    ∧ Private.validateContentsModel (modelWith (.num 7) .null (.str "json")) =
        .ok ()
    ∧ Private.validateContentsModel
        (.obj [("name", .num 3), ("path", .str "p"), ("type", .str "file"),
          ("created", .str "c"), ("last_modified", .str "m"),
          ("mimetype", .null), ("content", .null), ("format", .null)]) =
        .error (.err (wrongTypeMsg "name" "string"))
    ∧ (Drive.get ⟨"http://h:8000/"⟩ SERVICE_DRIVE_URL "d/f.txt" none
        ⟨200, modelWith (.num 7) .null (.str "json")⟩).result =
      .ok (modelWith (.num 7) .null (.str "json")) := by
  refine ⟨?_, rfl, rfl, rfl, ?_⟩
  · intro mv cv fv h1 h2 h3
    cases mv <;> cases cv <;> cases fv <;>
      first
        | exact absurd rfl h1
        | exact absurd rfl h2
        | exact absurd rfl h3
        | rfl
  · exact (get_ok_iff ⟨"http://h:8000/"⟩ SERVICE_DRIVE_URL "d/f.txt" none
      ⟨200, modelWith (.num 7) .null (.str "json")⟩
      (modelWith (.num 7) .null (.str "json"))).mpr ⟨by decide, rfl, rfl, rfl⟩

/-- Witness for C9 with concrete non-undefined nullable fields. -/
theorem validateContentsModel_presence_only_witness :
    Private.validateContentsModel
      (modelWith (.num 1) (.bool true) (.str "x")) = .ok () :=
  validateContentsModel_presence_only.1 (.num 1) (.bool true) (.str "x")
    (fun h => JsValue.noConfusion h) (fun h => JsValue.noConfusion h)
    (fun h => JsValue.noConfusion h)

theorem get_finalOptions_eq (s : ServerSettings) (ep p : String)
    (fo : Option FetchOptions) (r : HttpResponse) (hb : s.baseUrl ≠ "") :
    (Drive.get s ep p fo r).finalOptions =
      match fo with
      | some o =>
          some (if o.type == some "notebook" then { o with format := none } else o)
      | none => none := by
  by_cases hs : r.status = 200
  · cases hv : Private.validateContentsModel r.body with
    | error e => simp [Drive.get, _getUrl_ok _ _ _ hb, hs, hv]
    | ok u =>
      cases u
      simp [Drive.get, _getUrl_ok _ _ _ hb, hs, hv]
  · simp [Drive.get, _getUrl_ok _ _ _ hb, hs]

theorem newUntitled_finalOptions_eq (s : ServerSettings) (ep : String)
    (co : CreateOptions) (r : HttpResponse) :
    (Drive.newUntitled s ep co r).finalOptions =
      match co.ext with
      | some e =>
          if e != "" then { co with ext := some (Private.normalizeExtension e) }
          else co
      | none => co := by
  by_cases hb : s.baseUrl = ""
  · simp [Drive.newUntitled, _getUrl_err _ _ _ hb]
  · by_cases hs : r.status = 201
    · cases hv : Private.validateContentsModel r.body with
      | error e => simp [Drive.newUntitled, _getUrl_ok _ _ _ hb, hs, hv]
      | ok u =>
        cases u
        simp [Drive.newUntitled, _getUrl_ok _ _ _ hb, hs, hv]
    · simp [Drive.newUntitled, _getUrl_ok _ _ _ hb, hs]

/-- C10 counterexample: a get call whose options request the notebook
type but whose baseUrl is empty throws the configuration error while
building the URL, before the mutation point, so the format option is
still present in the caller options afterwards: the deletion does not
happen on every get call with notebook type. -/
theorem get_format_mutation_counterexample :
    (Drive.get ⟨""⟩ SERVICE_DRIVE_URL "n.ipynb"
        (some ⟨some "notebook", some "json", none⟩)
        ⟨200, modelWith .null .null .null⟩).finalOptions =
      some ⟨some "notebook", some "json", none⟩
    ∧ (Drive.get ⟨""⟩ SERVICE_DRIVE_URL "n.ipynb"
        (some ⟨some "notebook", some "json", none⟩)
        ⟨200, modelWith .null .null .null⟩).result =
      .error (.err "Jupyter server URL not set") :=
  ⟨rfl, rfl⟩

/-- C10 amended: once get proceeds past URL construction (baseUrl
non-empty) a notebook-typed options object loses its format property,
whatever the response and result; and newUntitled overwrites a present
non-empty ext with its normalization before URL construction, so that
mutation is visible to the caller even when the call fails, including
the unset-baseUrl failure. -/
theorem options_mutation_visible (s : ServerSettings) (ep p : String)
    (o : FetchOptions) (co : CreateOptions) (e : String) (r : HttpResponse) :
    (s.baseUrl ≠ "" → o.type = some "notebook" →
      (Drive.get s ep p (some o) r).finalOptions =
        some { o with format := none })
    ∧ (co.ext = some e → e ≠ "" →
      (Drive.newUntitled s ep co r).finalOptions =
        { co with ext := some (Private.normalizeExtension e) }) := by
  constructor
  · intro hb ht
    rw [get_finalOptions_eq s ep p (some o) r hb]
    simp [ht]
  · intro he hne
    rw [newUntitled_finalOptions_eq s ep co r, he]
    simp [hne]

/-- Witness for C10 as amended: a failing get with non-empty baseUrl has
dropped format, and a failing newUntitled with empty baseUrl has
normalized ext. -/
theorem options_mutation_visible_witness :
    (Drive.get ⟨"http://h:8000/"⟩ SERVICE_DRIVE_URL "n.ipynb"
        (some ⟨some "notebook", some "json", none⟩) ⟨404, .null⟩).finalOptions =
      some ⟨some "notebook", none, none⟩
    ∧ (Drive.newUntitled ⟨""⟩ SERVICE_DRIVE_URL ⟨none, none, some "py"⟩
        ⟨500, .null⟩).finalOptions = ⟨none, none, some ".py"⟩ :=
  ⟨(options_mutation_visible ⟨"http://h:8000/"⟩ SERVICE_DRIVE_URL "n.ipynb"
      ⟨some "notebook", some "json", none⟩ ⟨none, none, none⟩ "x"
      ⟨404, .null⟩).1 (by decide) rfl,
   (options_mutation_visible ⟨""⟩ SERVICE_DRIVE_URL "n.ipynb"
      ⟨some "notebook", some "json", none⟩ ⟨none, none, some "py"⟩ "py"
      ⟨500, .null⟩).2 rfl (by decide)⟩
